import Mathlib

/-!
Verification of the order-item status lifecycle engine of the vibly
backend (order controllers, order model, carrier webhook handlers).

The JavaScript sources are shallowly embedded: mongoose subdocuments
become structures, `Date` timestamps become integers counting
milliseconds, mutation of a document inside one transaction becomes a
pure function from the pre-state to an `Except` of the post-state
(a thrown error aborts the transaction, so the error case carries no
state), and `new ObjectId()` assignment at save time becomes an explicit
`freshId` parameter.
-/

namespace Vibly

/-- Milliseconds since the epoch, the value of a JS `Date`. -/
abbrev Millis := Int

/-- One element of `statusHistory` (statusHistorySchema in
newOrder.model.js): a status value, an optional note, and the
`changedAt` timestamp. -/
structure StatusHistoryEntry where
  status : String
  note : Option String
  changedAt : Millis
deriving DecidableEq

/-- The `flags` subdocument of shiprocketSchema in newOrder.model.js. -/
structure ShiprocketFlags where
  adhocOrderCreated : Bool := false
  awbAssigned : Bool := false
  pickupGenerated : Bool := false
deriving DecidableEq

/-- The `shiprocket` subdocument of an order item (shiprocketSchema in
newOrder.model.js), together with the extra keys the webhook handlers
merge into it (awbCode, lastUpdated, status, reason, returnCourierName,
returnAwbCode, returnLastUpdated, returnStatus, returnReason,
trackingData). -/
structure ShiprocketInfo where
  orderId : Option String := none
  shipmentId : Option String := none
  trackingNumber : Option String := none
  courierName : Option String := none
  awbCode : Option String := none
  returnOrderId : Option String := none
  returnShipmentId : Option String := none
  returnTrackingNumber : Option String := none
  returnCourierName : Option String := none
  returnAwbCode : Option String := none
  lastUpdated : Option Millis := none
  returnLastUpdated : Option Millis := none
  status : Option String := none
  returnStatus : Option String := none
  reason : Option String := none
  returnReason : Option String := none
  trackingData : Option String := none
  flags : ShiprocketFlags := {}
deriving DecidableEq

/-- `refundAccountDetails` of an order item (newOrder.model.js). -/
structure RefundAccountDetails where
  accountType : Option String := none
  bankName : Option String := none
  accountNumber : Option String := none
  ifscCode : Option String := none
  accountHolderName : Option String := none
  upiId : Option String := none
  phoneNumber : Option String := none
deriving DecidableEq

/-- An order item (orderItemSchema in newOrder.model.js). `id` models the
mongoose `_id` of the subdocument; the product/color snapshots are kept
as the scalar parts the lifecycle code reads. -/
structure OrderItem where
  id : Nat
  productId : Nat := 0
  productName : String := ""
  colorName : Option String := none
  size : String := ""
  quantity : Nat
  amount : Int := 0
  orderStatus : String := "Ordered"
  statusHistory : List StatusHistoryEntry := []
  cancelId : Option String := none
  cancelledAt : Option Millis := none
  returnId : Option String := none
  returnRequestedAt : Option Millis := none
  returnedAt : Option Millis := none
  returnRequestNote : Option String := none
  refundAmount : Option Int := none
  refundStatus : Option String := none
  refundProcessedAt : Option Millis := none
  refundRequestedAt : Option Millis := none
  refundRequestNote : Option String := none
  refundAccountDetails : Option RefundAccountDetails := none
  refundApprovedAt : Option Millis := none
  refundApprovedBy : Option Nat := none
  refundRejectedAt : Option Millis := none
  refundRejectedBy : Option Nat := none
  refundRejectionReason : Option String := none
  shippedAt : Option Millis := none
  deliveredAt : Option Millis := none
  shiprocket : Option ShiprocketInfo := none
deriving DecidableEq

/-- The `amount` subdocument of an order (newOrder.model.js). -/
structure OrderAmount where
  shippingCharges : Int
  totalAmount : Int
deriving DecidableEq

/-- An order document (newOrderSchema in newOrder.model.js). The order
schema declares no `shiprocket` path of its own; only items carry one. -/
structure Order where
  orderId : String
  userId : Nat := 0
  items : List OrderItem
  paymentMethod : String := "COD"
  paymentStatus : String := "PENDING"
  amount : OrderAmount := ⟨0, 0⟩
  orderedAt : Millis := 0
deriving DecidableEq

/-- The adjacency rows of the `OrderStatus` table in newOrder.model.js,
keyed by status value, as read through the `statusMap` object built in
the order controller (`statusMap[currentStatus]`, yielding `undefined`
for an unknown key). -/
def statusNext (current : String) : Option (List String) :=
  if current = "Ordered" then some ["Cancelled", "Shipped"]
  else if current = "Shipped" then some ["Delivered"]
  else if current = "Delivered" then some ["Return Requested"]
  else if current = "Cancelled" then some ["Refunded"]
  else if current = "Return Requested" then some ["Departed For Returning", "Return Cancelled"]
  else if current = "Departed For Returning" then some ["Returned", "Return Cancelled"]
  else if current = "Returned" then some ["Refunded"]
  else if current = "Return Cancelled" then some []
  else if current = "Refunded" then some []
  else none

/-- `canTransition(currentStatus, nextStatus)` from the order
controller: false when `statusMap[currentStatus]` is undefined,
otherwise membership of `nextStatus` in the adjacency row. -/
def canTransition (currentStatus nextStatus : String) : Bool :=
  match statusNext currentStatus with
  | none => false
  | some nexts => nexts.contains nextStatus

/-- The edge relation of the 9-node status graph, spelled out. -/
def isGraphEdge (c t : String) : Prop :=
  (c = "Ordered" ∧ (t = "Cancelled" ∨ t = "Shipped")) ∨
  (c = "Shipped" ∧ t = "Delivered") ∨
  (c = "Delivered" ∧ t = "Return Requested") ∨
  (c = "Cancelled" ∧ t = "Refunded") ∨
  (c = "Return Requested" ∧ (t = "Departed For Returning" ∨ t = "Return Cancelled")) ∨
  (c = "Departed For Returning" ∧ (t = "Returned" ∨ t = "Return Cancelled")) ∨
  (c = "Returned" ∧ t = "Refunded")

/-! ## Transition executor: the per-item mutation paths -/

/-- The error taxonomy of the mutation controllers; each constructor is
one of the `throw new Error(...)` / early-400 exits. -/
inductive OpError
  | invalidRequest
  | itemNotFound
  | invalidTransition
  | quantityExceeded
  | missingDeliveryRecord
  | returnWindowExpired
  | refundAlreadyProcessed
  | refundAlreadyRequested
  | refundNotPending
  | noItemsAvailable
  | stepAlreadyDone
deriving DecidableEq

/-- `order.items.findIndex(i => i._id.toString() === itemId)` followed
by reading `order.items[itemIndex]`. -/
def findItem (order : Order) (itemId : Nat) : Option (Nat × OrderItem) :=
  match order.items.findIdx? (fun i => i.id == itemId) with
  | none => none
  | some idx => (order.items[idx]?).map (fun it => (idx, it))

/-- Modelled from the spec: `createStatusHistoryEntry(status, note)` of
services/orderUtils.js (file absent from the sources) builds the history
entry `{status, note, timestamp: now}` appended on each transition. -/
def createStatusHistoryEntry (status : String) (note : Option String) (now : Millis) : StatusHistoryEntry :=
  ⟨status, note, now⟩

/-- The split-or-update shape shared by every quantity-aware mutation
path: when the requested quantity is strictly below the item's quantity
the original is decremented and a by-value copy (`item.toObject()` plus
the path's own field edits, `applyBatch`) carrying the transitioned
quantity is pushed at the end of `order.items`; otherwise the item is
updated in place (`applyFull`). -/
def splitOrUpdate (order : Order) (i : Nat) (item : OrderItem) (quantity : Nat)
    (applyBatch : OrderItem → OrderItem) (applyFull : OrderItem → OrderItem) : Order :=
  if quantity < item.quantity then
    let batch := { applyBatch item with quantity := quantity }
    let original := { item with quantity := item.quantity - quantity }
    { order with items := order.items.set i original ++ [batch] }
  else
    { order with items := order.items.set i (applyFull item) }

/-- `cancelOrderItem` (also `cancelOrderItemByAdmin`, which has the same
body with a caller-supplied note): transaction body of the user cancel
path. `freshId` models the `_id` mongoose assigns to the pushed batch at
save time, since the copy's `_id` is deleted before the push. -/
def cancelOrderItem (order : Order) (itemId : Nat) (quantity : Nat)
    (note : Option String) (freshId : Nat) (now : Millis) : Except OpError Order :=
  if quantity < 1 then .error .invalidRequest
  else match findItem order itemId with
  | none => .error .itemNotFound
  | some (i, item) =>
    if ¬ canTransition item.orderStatus "Cancelled" then .error .invalidTransition
    else if item.quantity < quantity then .error .quantityExceeded
    else
      let historyEntry : StatusHistoryEntry := ⟨"Cancelled", note, now⟩
      .ok (splitOrUpdate order i item quantity
        (fun it => { it with id := freshId, orderStatus := "Cancelled",
                             statusHistory := it.statusHistory ++ [historyEntry] })
        (fun it => { it with orderStatus := "Cancelled",
                             statusHistory := it.statusHistory ++ [historyEntry] }))

/-- `new Date(t).setHours(0,0,0,0)`: the timestamp truncated to the
start of its calendar day. -/
def truncateToMidnight (t : Millis) : Millis :=
  86400000 * (Int.fdiv t 86400000)

/-- `Math.floor((midnight(now) - midnight(deliveredAt)) / 86400000)`
from `returnOrderItem`. -/
def daysPassed (now deliveredAt : Millis) : Int :=
  Int.fdiv (truncateToMidnight now - truncateToMidnight deliveredAt) 86400000

/-- `returnOrderItem`: transaction body of the user return-request path.
`returnId` stands for the generated unique return identifier and
`freshId` for the `_id` assigned to the pushed batch at save time. -/
def returnOrderItem (order : Order) (itemId : Nat) (quantity : Nat)
    (note : String) (returnId : String) (freshId : Nat) (now : Millis) : Except OpError Order :=
  if quantity < 1 then .error .invalidRequest
  else if note = "" then .error .invalidRequest
  else match findItem order itemId with
  | none => .error .itemNotFound
  | some (i, item) =>
    if ¬ canTransition item.orderStatus "Return Requested" then .error .invalidTransition
    else if item.quantity < quantity then .error .quantityExceeded
    else match item.statusHistory.find? (fun e => e.status == "Delivered") with
    | none => .error .missingDeliveryRecord
    | some deliveredEntry =>
      if daysPassed now deliveredEntry.changedAt > 7 then .error .returnWindowExpired
      else
        let historyEntry : StatusHistoryEntry := ⟨"Return Requested", some note, now⟩
        .ok (splitOrUpdate order i item quantity
          (fun it => { it with id := freshId, orderStatus := "Return Requested",
                               returnId := some returnId,
                               returnRequestedAt := some now,
                               returnRequestNote := some note,
                               statusHistory := it.statusHistory ++ [historyEntry] })
          (fun it => { it with orderStatus := "Return Requested",
                               returnId := some returnId,
                               returnRequestedAt := some now,
                               returnRequestNote := some note,
                               statusHistory := it.statusHistory ++ [historyEntry] }))

/-- `quantity && quantity > 0 ? quantity : item.quantity`: the optional
request quantity, defaulting to the full batch. -/
def defaultedQty (quantity : Option Nat) (itemQuantity : Nat) : Nat :=
  match quantity with
  | some q => if 0 < q then q else itemQuantity
  | none => itemQuantity

/-- `processRefund` (admin): transaction body. The batch of a
sub-quantity refund is `{...item.toObject(), ...}` — the spread keeps
the parent's `_id`, so unlike the cancel/return paths no fresh identity
is involved. A missing or non-positive `quantity` defaults to the full
batch. -/
def processRefund (order : Order) (itemId : Nat) (refundAmount : Int)
    (quantity : Option Nat) (now : Millis) : Except OpError Order :=
  if refundAmount ≤ 0 then .error .invalidRequest
  else match findItem order itemId with
  | none => .error .itemNotFound
  | some (i, item) =>
    if item.quantity < defaultedQty quantity item.quantity then .error .quantityExceeded
    else if ¬ canTransition item.orderStatus "Refunded" then .error .invalidTransition
    else
      let historyEntry : StatusHistoryEntry :=
        ⟨"Refunded", some "Refund processed by admin", now⟩
      .ok (splitOrUpdate order i item (defaultedQty quantity item.quantity)
        (fun it => { it with orderStatus := "Refunded",
                             refundAmount := some refundAmount,
                             refundStatus := some "Refunded",
                             refundProcessedAt := some now,
                             statusHistory := it.statusHistory ++ [historyEntry] })
        (fun it => { it with orderStatus := "Refunded",
                             refundAmount := some refundAmount,
                             refundStatus := some "Refunded",
                             refundProcessedAt := some now,
                             statusHistory := it.statusHistory ++ [historyEntry] }))

/-- `processReturnCancel` (also `processReturnCancelByAdmin`, same
body): transaction body of the return-cancel path. The sub-quantity
batch is `{...item.toObject(), ...}`, keeping the parent's `_id`. A
missing or non-positive `quantity` defaults to the full batch. -/
def processReturnCancel (order : Order) (itemId : Nat)
    (quantity : Option Nat) (now : Millis) : Except OpError Order :=
  match findItem order itemId with
  | none => .error .itemNotFound
  | some (i, item) =>
    if item.quantity < defaultedQty quantity item.quantity then .error .quantityExceeded
    else if ¬ canTransition item.orderStatus "Return Cancelled" then .error .invalidTransition
    else
      let historyEntry : StatusHistoryEntry :=
        ⟨"Return Cancelled", some "Return request cancelled by admin", now⟩
      .ok (splitOrUpdate order i item (defaultedQty quantity item.quantity)
        (fun it => { it with orderStatus := "Return Cancelled",
                             statusHistory := it.statusHistory ++ [historyEntry] })
        (fun it => { it with orderStatus := "Return Cancelled",
                             statusHistory := it.statusHistory ++ [historyEntry] }))

/-- `newOrderSchema.methods.updateItemStatus(itemIndex, newStatus, note)`
from newOrder.model.js: set the item's status and push one history
entry with `changedAt: new Date()`. -/
def updateItemStatus (order : Order) (itemIndex : Nat) (newStatus : String)
    (note : Option String) (now : Millis) : Except OpError Order :=
  match order.items[itemIndex]? with
  | none => .error .itemNotFound
  | some item =>
    let updated := { item with
      orderStatus := newStatus,
      statusHistory := item.statusHistory ++ [⟨newStatus, note, now⟩] }
    .ok { order with items := order.items.set itemIndex updated }

/-- `updateReturnRequestStatus` (admin): transaction body. The item is
located by its `returnId`; the transition is validated against the
graph, one history entry is pushed, and `returnedAt` /
`refundProcessedAt` are stamped for the respective targets. -/
def updateReturnRequestStatus (order : Order) (returnId : String) (status : String)
    (note : Option String) (now : Millis) : Except OpError Order :=
  match order.items.findIdx? (fun it => it.returnId == some returnId) with
  | none => .error .itemNotFound
  | some i =>
    match order.items[i]? with
    | none => .error .itemNotFound
    | some item =>
      if ¬ canTransition item.orderStatus status then .error .invalidTransition
      else
        .ok { order with
               items := order.items.set i
                 (if status = "Returned" then
                   { item with
                      orderStatus := status,
                      statusHistory := item.statusHistory ++ [⟨status, note, now⟩],
                      returnedAt := some now }
                  else if status = "Refunded" then
                   { item with
                      orderStatus := status,
                      statusHistory := item.statusHistory ++ [⟨status, note, now⟩],
                      refundProcessedAt := some now }
                  else
                   { item with
                      orderStatus := status,
                      statusHistory := item.statusHistory ++ [⟨status, note, now⟩] }) }

/-- `requestRefund` (user), reduced to its per-item logic: the guard
chain of the controller followed by the field writes. The computed
`refundAmount` in the source is `item.amount.totalAmount * quantity`,
but `item.amount` is a scalar Number, so the product is `NaN`; it is
modelled as `none`. -/
def requestRefund (item : OrderItem) (quantity : Nat)
    (details : RefundAccountDetails) (note : Option String) (now : Millis) :
    Except OpError OrderItem :=
  if quantity < 1 then .error .invalidRequest
  else if details.accountType = none ∨ (details.upiId = none ∧ details.accountNumber = none) then
    .error .invalidRequest
  else if ¬ canTransition item.orderStatus "Refunded" then .error .invalidTransition
  else if item.refundStatus = some "REFUNDED" then .error .refundAlreadyProcessed
  else if item.refundRequestedAt.isSome then .error .refundAlreadyRequested
  else if item.quantity < quantity then .error .quantityExceeded
  else .ok { item with
    refundAmount := none,
    refundStatus := some "PENDING",
    refundRequestedAt := some now,
    refundRequestNote := some (note.getD "User requested refund for cancelled item"),
    refundAccountDetails := some details,
    statusHistory := item.statusHistory ++
      [⟨item.orderStatus, some "Refund requested - awaiting admin approval", now⟩] }

/-- `approveRefundRequest` (admin), reduced to its per-item logic. -/
def approveRefundRequest (item : OrderItem) (refundAmount : Int) (adminId : Nat)
    (now : Millis) : Except OpError OrderItem :=
  if refundAmount ≤ 0 then .error .invalidRequest
  else if item.refundRequestedAt = none ∨ item.refundStatus ≠ some "PENDING" then
    .error .refundNotPending
  else .ok { item with
    refundStatus := some "REFUNDED",
    refundAmount := some refundAmount,
    refundApprovedAt := some now,
    refundApprovedBy := some adminId,
    statusHistory := item.statusHistory ++
      [⟨item.orderStatus,
        some ("Refund approved by admin - Amount: " ++ toString refundAmount), now⟩] }

/-- `rejectRefundRequest` (admin), reduced to its per-item logic. -/
def rejectRefundRequest (item : OrderItem) (rejectionReason : String) (adminId : Nat)
    (now : Millis) : Except OpError OrderItem :=
  if rejectionReason.trim = "" then .error .invalidRequest
  else if item.refundRequestedAt = none ∨ item.refundStatus ≠ some "PENDING" then
    .error .refundNotPending
  else .ok { item with
    refundStatus := some "REJECTED",
    refundRejectedAt := some now,
    refundRejectedBy := some adminId,
    refundRejectionReason := some rejectionReason,
    statusHistory := item.statusHistory ++
      [⟨item.orderStatus,
        some ("Refund rejected by admin - Reason: " ++ rejectionReason), now⟩] }

/-- The timestamps of a status history never decrease along the
sequence. -/
def historyMonotone (h : List StatusHistoryEntry) : Prop :=
  h.Pairwise (fun a b => a.changedAt ≤ b.changedAt)

/-- Append-only history: every item of `order2` carries either the
untouched history of an item of `order`, or such a history extended by
exactly the one entry `e` at the end. -/
def historyAppendOnly (order order2 : Order) (e : StatusHistoryEntry) : Prop :=
  ∀ b ∈ order2.items,
    (∃ a ∈ order.items, b.statusHistory = a.statusHistory) ∨
    (∃ a ∈ order.items, b.statusHistory = a.statusHistory ++ [e])

/-! ## Quantity conservation -/

/-- Total quantity held by a list of order items. -/
def totalQty (items : List OrderItem) : Nat :=
  (items.map (fun i => i.quantity)).sum

/-- One request against the order, on any of the four quantity-splitting
driver paths. Each constructor carries the request parameters of the
corresponding controller. -/
inductive SplitOp
  | cancel (itemId quantity : Nat) (note : Option String) (freshId : Nat) (now : Millis)
  | returnRequest (itemId quantity : Nat) (note returnId : String) (freshId : Nat) (now : Millis)
  | refund (itemId : Nat) (refundAmount : Int) (quantity : Option Nat) (now : Millis)
  | returnCancel (itemId : Nat) (quantity : Option Nat) (now : Millis)

/-- Apply one request; the `withTransaction` wrapper aborts the whole
write on error, so a failed request leaves the order unchanged. -/
def runOp (order : Order) (op : SplitOp) : Order :=
  match op with
  | .cancel itemId q note freshId now =>
    match cancelOrderItem order itemId q note freshId now with
    | .ok o => o
    | .error _ => order
  | .returnRequest itemId q note returnId freshId now =>
    match returnOrderItem order itemId q note returnId freshId now with
    | .ok o => o
    | .error _ => order
  | .refund itemId amt q now =>
    match processRefund order itemId amt q now with
    | .ok o => o
    | .error _ => order
  | .returnCancel itemId q now =>
    match processReturnCancel order itemId q now with
    | .ok o => o
    | .error _ => order

/-- A whole sequence of requests. -/
def runOps (ops : List SplitOp) (order : Order) : Order :=
  ops.foldl runOp order

/-! ## Webhook ingestion (shiprocketWebhook.controller.js) -/

/-- JS `a || b` over payload fields: take the left value when present.
(The model treats any present string as truthy; the payloads the
normaliser reads never carry empty strings.) -/
def jsOr {α : Type} (a b : Option α) : Option α :=
  match a with
  | some x => some x
  | none => b

/-- The inbound carrier payload keys `normalizeShiprocketPayload`
reads, each optional. -/
structure RawWebhookPayload where
  status : Option String := none
  current_status : Option String := none
  shipment_status : Option String := none
  order_id : Option String := none
  external_order_id : Option String := none
  channel_order_id : Option String := none
  id : Option String := none
  orderid : Option String := none
  shipment_id : Option String := none
  shipmentid : Option String := none
  tracking_number : Option String := none
  tracking_id : Option String := none
  awb : Option String := none
  awb_code : Option String := none
  courier_name : Option String := none
  courier : Option String := none
  updated_at : Option Millis := none
  current_timestamp : Option Millis := none
  etd : Option Millis := none
  reason : Option String := none
  remark : Option String := none
  comment : Option String := none
  tracking_data : Option String := none
deriving DecidableEq

/-- The canonical tuple `normalizeShiprocketPayload` returns. It has no
`return_order_id`, `original_order_id` or `refund_amount` keys. -/
structure WebhookData where
  order_id : Option String
  shipment_id : Option String
  status : Option String
  tracking_data : Option String
  courier_name : Option String
  awb_code : Option String
  tracking_number : Option String
  updated_at : Millis
  reason : Option String
deriving DecidableEq

/-- `normalizeShiprocketPayload(raw)`: resolve each canonical field
from the first present alias, defaulting the timestamp to the ingestion
time. (`tracking_data` is kept opaque; the scans-array rebuild only
feeds audit notes.) -/
def normalizeShiprocketPayload (raw : RawWebhookPayload) (ingestionTime : Millis) : WebhookData :=
  { status := jsOr raw.status (jsOr raw.current_status raw.shipment_status),
    order_id := jsOr raw.order_id (jsOr raw.external_order_id
      (jsOr raw.channel_order_id (jsOr raw.id raw.orderid))),
    shipment_id := jsOr raw.shipment_id raw.shipmentid,
    tracking_number := jsOr raw.tracking_number (jsOr raw.tracking_id (jsOr raw.awb raw.awb_code)),
    awb_code := jsOr raw.awb_code raw.awb,
    courier_name := jsOr raw.courier_name raw.courier,
    updated_at := (jsOr raw.updated_at (jsOr raw.current_timestamp raw.etd)).getD ingestionTime,
    reason := jsOr raw.reason (jsOr raw.remark raw.comment),
    tracking_data := raw.tracking_data }

/-- `mapShiprocketStatus`: the fixed carrier-vocabulary table, with the
lenient fallback to `Ordered` for unknown statuses. -/
def mapShiprocketStatus (shiprocketStatus : String) : String :=
  if shiprocketStatus = "NEW" then "Ordered"
  else if shiprocketStatus = "PROCESSING" then "Ordered"
  else if shiprocketStatus = "READY_TO_SHIP" then "Ordered"
  else if shiprocketStatus = "SHIPPED" then "Shipped"
  else if shiprocketStatus = "DELIVERED" then "Delivered"
  else if shiprocketStatus = "CANCELLED" then "Cancelled"
  else if shiprocketStatus = "RTO" then "Returned"
  else if shiprocketStatus = "RTO_DELIVERED" then "Returned"
  else if shiprocketStatus = "RTO_CANCELLED" then "Return Cancelled"
  else if shiprocketStatus = "LOST" then "Cancelled"
  else if shiprocketStatus = "DAMAGED" then "Returned"
  else if shiprocketStatus = "RETURNED" then "Returned"
  else if shiprocketStatus = "REFUNDED" then "Refunded"
  else "Ordered"

/-- `getStatusNote`: the audit-note table, interpolating the courier
name for `SHIPPED` and defaulting to "Status updated". -/
def getStatusNote (shiprocketStatus : String) (courierName : Option String) : String :=
  if shiprocketStatus = "NEW" then "Order received by Shiprocket"
  else if shiprocketStatus = "PROCESSING" then "Order is being processed"
  else if shiprocketStatus = "READY_TO_SHIP" then "Order is ready for shipment"
  else if shiprocketStatus = "SHIPPED" then "Order shipped via " ++ courierName.getD "courier"
  else if shiprocketStatus = "DELIVERED" then "Order delivered successfully"
  else if shiprocketStatus = "CANCELLED" then "Order cancelled"
  else if shiprocketStatus = "RTO" then "Order returned to origin"
  else if shiprocketStatus = "RTO_DELIVERED" then "Return order delivered"
  else if shiprocketStatus = "RTO_CANCELLED" then "Return order cancelled"
  else if shiprocketStatus = "LOST" then "Order lost in transit"
  else if shiprocketStatus = "DAMAGED" then "Order damaged in transit"
  else if shiprocketStatus = "RETURNED" then "Order returned"
  else if shiprocketStatus = "REFUNDED" then "Order refunded"
  else "Status updated"

/-- `item.shiprocket?.orderId`. -/
def srOrderId (item : OrderItem) : Option String :=
  item.shiprocket.bind (fun s => s.orderId)

/-- The per-item body of the order-status webhook loop: set the mapped
status, push a history entry and stamp the status timestamp ONLY when
the item is not already at the mapped status, then always refresh the
carrier metadata record. -/
def applyOrderWebhookToItem (d : WebhookData) (newStatus statusNote : String)
    (now : Millis) (item : OrderItem) : OrderItem :=
  let item1 :=
    if item.orderStatus ≠ newStatus then
      let base := { item with
        orderStatus := newStatus,
        statusHistory := item.statusHistory ++
          [createStatusHistoryEntry newStatus (some statusNote) now] }
      if newStatus = "Shipped" then { base with shippedAt := some now }
      else if newStatus = "Delivered" then { base with deliveredAt := some now }
      else if newStatus = "Returned" then { base with returnedAt := some now }
      else base
    else item
  let sr := item1.shiprocket.getD {}
  { item1 with shiprocket := some { sr with
      orderId := d.order_id,
      shipmentId := d.shipment_id,
      trackingNumber := jsOr d.tracking_number sr.trackingNumber,
      courierName := jsOr d.courier_name sr.courierName,
      awbCode := jsOr d.awb_code sr.awbCode,
      lastUpdated := some d.updated_at,
      status := d.status,
      reason := jsOr d.reason sr.reason } }

/-- `handleShiprocketWebhook` (order-status family), transaction body
against the matched order: reject when the normalised `order_id` or
`status` is missing, or when no item carries the carrier order id;
otherwise update every matching item. -/
def handleShiprocketWebhook (raw : RawWebhookPayload) (now : Millis)
    (order : Order) : Except String Order :=
  let d := normalizeShiprocketPayload raw now
  match d.order_id, d.status with
  | some order_id, some status =>
    if (order.items.filter (fun it => srOrderId it == some order_id)).isEmpty then
      .error "No items found for this Shiprocket order"
    else
      .ok { order with items := order.items.map (fun it =>
        if srOrderId it == some order_id then
          applyOrderWebhookToItem d (mapShiprocketStatus status)
            (getStatusNote status d.courier_name) now it
        else it) }
  | _, _ => .error "Missing required data"

/-- The per-item body of the return-status webhook loop: unlike the
order-status loop it has NO already-at-status guard — the status write
and history push are unconditional. (`refund_amount` is destructured
from the normalised payload, which has no such key, so the
refund-amount write can never fire and is omitted.) -/
def applyReturnWebhookToItem (d : WebhookData) (newStatus statusNote : String)
    (now : Millis) (returnOrderIdNew : String) (item : OrderItem) : OrderItem :=
  let base := { item with
    orderStatus := newStatus,
    statusHistory := item.statusHistory ++
      [createStatusHistoryEntry newStatus (some statusNote) now] }
  let item1 :=
    if newStatus = "Returned" then { base with returnedAt := some now }
    else if newStatus = "Refunded" then { base with refundProcessedAt := some now }
    else base
  let sr := item1.shiprocket.getD {}
  { item1 with shiprocket := some { sr with
      returnOrderId := some returnOrderIdNew,
      returnTrackingNumber := jsOr d.tracking_number sr.returnTrackingNumber,
      returnCourierName := jsOr d.courier_name sr.returnCourierName,
      returnAwbCode := jsOr d.awb_code sr.returnAwbCode,
      returnLastUpdated := some d.updated_at,
      returnStatus := d.status,
      returnReason := jsOr d.reason sr.returnReason } }

/-- `handleShiprocketReturnWebhook`: the handler destructures
`return_order_id` and `original_order_id` from the normalised payload,
but `normalizeShiprocketPayload` produces neither key, so both are
always absent and the `!return_order_id || !status` guard answers 400
on every call, before any mutation. -/
def handleShiprocketReturnWebhook (raw : RawWebhookPayload) (now : Millis)
    (order : Order) : Except String Order :=
  let d := normalizeShiprocketPayload raw now
  let return_order_id : Option String := none
  let original_order_id : Option String := none
  match return_order_id, d.status with
  | some rid, some status =>
    if (order.items.filter (fun it => srOrderId it == original_order_id)).isEmpty then
      .error "No items found for this order"
    else
      .ok { order with items := order.items.map (fun it =>
        if srOrderId it == original_order_id then
          applyReturnWebhookToItem d (mapShiprocketStatus status)
            ("Return " ++ getStatusNote status d.courier_name) now rid it
        else it) }
  | _, _ => .error "Missing required data"

/-- The per-item body of the tracking webhook loop: only the carrier
metadata record is touched. -/
def applyTrackingWebhookToItem (d : WebhookData) (orderIdNew shipmentIdNew : String)
    (item : OrderItem) : OrderItem :=
  let sr := item.shiprocket.getD {}
  { item with shiprocket := some { sr with
      orderId := some orderIdNew,
      shipmentId := some shipmentIdNew,
      trackingNumber := jsOr d.tracking_number sr.trackingNumber,
      courierName := jsOr d.courier_name sr.courierName,
      lastUpdated := some d.updated_at,
      status := jsOr d.status sr.status,
      trackingData := jsOr d.tracking_data sr.trackingData } }

/-- `handleShiprocketTrackingWebhook`, transaction body against the
matched order. -/
def handleShiprocketTrackingWebhook (raw : RawWebhookPayload) (now : Millis)
    (order : Order) : Except String Order :=
  let d := normalizeShiprocketPayload raw now
  match d.order_id, d.shipment_id with
  | some order_id, some shipment_id =>
    if (order.items.filter (fun it => srOrderId it == some order_id)).isEmpty then
      .error "No items found for this order"
    else
      .ok { order with items := order.items.map (fun it =>
        if srOrderId it == some order_id then
          applyTrackingWebhookToItem d order_id shipment_id it
        else it) }
  | _, _ => .error "Missing required data"

/-! ## Outbound 3-step carrier handoff -/

/-- The `order.shiprocket` path read by the step-1 guard: the order
schema (newOrderSchema) declares no such path and no code writes one,
so the read yields `undefined` on every order document. -/
def orderLevelShiprocket (_order : Order) : Option ShiprocketInfo := none

/-- `createAdhocOrderStep` (admin, step 1), transaction body given a
successful carrier call: guard on
`order.shiprocket?.flags?.adhocOrderCreated`, require at least one
`Ordered` item, then merge the carrier ids
(`updateOrderWithShiprocketData`) into every `Ordered` item's carrier
record and set its `adhocOrderCreated` flag. -/
def createAdhocOrderStep (order : Order)
    (newOrderId newShipmentId newCourier : Option String) : Except OpError Order :=
  if ((orderLevelShiprocket order).map (fun s => s.flags.adhocOrderCreated)).getD false then
    .error .stepAlreadyDone
  else if (order.items.filter (fun it => it.orderStatus == "Ordered")).isEmpty then
    .error .noItemsAvailable
  else
    .ok { order with items := order.items.map (fun it =>
      if it.orderStatus == "Ordered" then
        { it with shiprocket := some { (it.shiprocket.getD {}) with
            orderId := newOrderId,
            shipmentId := newShipmentId,
            trackingNumber := some "",
            courierName := newCourier,
            returnOrderId := some "",
            returnShipmentId := some "",
            returnTrackingNumber := some "",
            flags := { (it.shiprocket.getD {}).flags with adhocOrderCreated := true } } }
      else it) }

/-- `generatePickupStep` (admin, step 3), transaction body given a
successful carrier call: requires an `Ordered` item with `awbAssigned`
set and rejects when one of those already has `pickupGenerated`; sets
`pickupGenerated` on them, then moves every `Ordered` item to `Shipped`
with one history entry and `shippedAt`, replacing its carrier record by
the fields read from the order-level `shiprocket` path (which the
schema never declares, so they are all absent). -/
def generatePickupStep (order : Order) (now : Millis) : Except OpError Order :=
  if (order.items.filter (fun it =>
      it.orderStatus == "Ordered" &&
        ((it.shiprocket.map (fun s => s.flags.awbAssigned)).getD false))).isEmpty then
    .error .noItemsAvailable
  else if (order.items.filter (fun it =>
      it.orderStatus == "Ordered" &&
        ((it.shiprocket.map (fun s => s.flags.awbAssigned)).getD false))).any
        (fun it => (it.shiprocket.map (fun s => s.flags.pickupGenerated)).getD false) then
    .error .stepAlreadyDone
  else
    .ok { order with items :=
      (order.items.map (fun it =>
        if it.orderStatus == "Ordered" &&
            ((it.shiprocket.map (fun s => s.flags.awbAssigned)).getD false) then
          { it with shiprocket := some { (it.shiprocket.getD {}) with
              flags := { (it.shiprocket.getD {}).flags with pickupGenerated := true } } }
        else it)).map (fun it =>
        if it.orderStatus == "Ordered" then
          { it with
             orderStatus := "Shipped",
             statusHistory := it.statusHistory ++
               [createStatusHistoryEntry "Shipped"
                 (some "Order shipped via Shiprocket - All steps completed") now],
             shippedAt := some now,
             shiprocket := some {
               orderId := (orderLevelShiprocket order).bind (fun s => s.orderId),
               shipmentId := (orderLevelShiprocket order).bind (fun s => s.shipmentId),
               trackingNumber := (orderLevelShiprocket order).bind (fun s => s.trackingNumber),
               courierName := (orderLevelShiprocket order).bind (fun s => s.courierName) } }
        else it) }

/-! ## Sample data for concrete instantiations -/

/-- A freshly placed five-unit item. -/
def sampleItem : OrderItem := { id := 1, quantity := 5 }

/-- A one-item order holding `sampleItem`. -/
def sampleOrder : Order := { orderId := "ORD-1", items := [sampleItem] }

/-- The order produced by cancelling 2 of the 5 units of `sampleItem`
(fresh id 7, at time 0). -/
def sampleCancelResult : Order :=
  { orderId := "ORD-1",
    items := [{ sampleItem with quantity := 3 },
              { sampleItem with
                 id := 7, quantity := 2, orderStatus := "Cancelled",
                 statusHistory := [⟨"Cancelled", none, 0⟩] }] }

/-- History of an item that was ordered on day 0, shipped on day 1 and
delivered on day 2. -/
def deliveredHistory : List StatusHistoryEntry :=
  [⟨"Ordered", none, 0⟩, ⟨"Shipped", none, 86400000⟩, ⟨"Delivered", none, 172800000⟩]

/-- A delivered three-unit item. -/
def deliveredItem : OrderItem :=
  { id := 2, quantity := 3, orderStatus := "Delivered", statusHistory := deliveredHistory }

/-- A one-item order holding `deliveredItem`. -/
def deliveredOrder : Order := { orderId := "ORD-2", items := [deliveredItem] }

/-- A four-unit item that the user has cancelled (so it is eligible for
an admin refund). -/
def cancelledItem : OrderItem :=
  { id := 3, quantity := 4, orderStatus := "Cancelled",
    statusHistory := [⟨"Ordered", none, 0⟩, ⟨"Cancelled", none, 1000⟩] }

/-- A one-item order holding `cancelledItem`. -/
def cancelledOrder : Order := { orderId := "ORD-3", items := [cancelledItem] }

/-- `cancelledItem` after its owner filed a refund request at time 5000. -/
def pendingRefundItem : OrderItem :=
  { cancelledItem with
     refundStatus := some "PENDING",
     refundRequestedAt := some 5000,
     refundRequestNote := some "User requested refund for cancelled item",
     refundAccountDetails := some { accountType := some "UPI", upiId := some "user@upi" },
     statusHistory := cancelledItem.statusHistory ++
       [⟨"Cancelled", some "Refund requested - awaiting admin approval", 5000⟩] }

/-- `pendingRefundItem` after admin 11 approved 500 at time 6000. -/
def approvedRefundItem : OrderItem :=
  { pendingRefundItem with
     refundStatus := some "REFUNDED",
     refundAmount := some 500,
     refundApprovedAt := some 6000,
     refundApprovedBy := some 11,
     statusHistory := pendingRefundItem.statusHistory ++
       [⟨"Cancelled", some "Refund approved by admin - Amount: 500", 6000⟩] }

/-- `sampleOrder` after `updateItemStatus(0, "Shipped", none)` at
time 42. -/
def sampleShipResult : Order :=
  { orderId := "ORD-1",
    items := [{ sampleItem with
                 orderStatus := "Shipped",
                 statusHistory := [⟨"Shipped", none, 42⟩] }] }

/-- A delivered item tracked under carrier order "SR1". -/
def webhookItem : OrderItem :=
  { id := 4, quantity := 1, orderStatus := "Delivered",
    statusHistory := deliveredHistory,
    shiprocket := some { orderId := some "SR1" } }

/-- A one-item order holding `webhookItem`. -/
def webhookOrder : Order := { orderId := "ORD-4", items := [webhookItem] }

/-- A carrier payload reporting external status SHIPPED for carrier
order "SR1". -/
def shippedPayload : RawWebhookPayload :=
  { order_id := some "SR1", status := some "SHIPPED",
    courier_name := some "DHL", updated_at := some 259300000 }

/-- A carrier payload reporting external status DELIVERED for carrier
order "SR1" — the item is already `Delivered`. -/
def deliveredPayload : RawWebhookPayload :=
  { order_id := some "SR1", status := some "DELIVERED", updated_at := some 300000000 }

/-- `webhookOrder` after ingesting `deliveredPayload`: status and
history untouched, carrier metadata refreshed. -/
def webhookSkipResult : Order :=
  { orderId := "ORD-4",
    items := [{ webhookItem with
                 shiprocket := some { orderId := some "SR1",
                                      lastUpdated := some 300000000,
                                      status := some "DELIVERED" } }] }

/-- An `Ordered` item whose `adhocOrderCreated` flag is already set
(step 1 completed). -/
def adhocDoneItem : OrderItem :=
  { id := 5, quantity := 1, orderStatus := "Ordered",
    shiprocket := some { orderId := some "SR9", shipmentId := some "SH9",
                         flags := { adhocOrderCreated := true } } }

/-- A one-item order holding `adhocDoneItem`. -/
def adhocDoneOrder : Order := { orderId := "ORD-5", items := [adhocDoneItem] }

/-- The item fields a webhook call may NOT touch: everything except
`orderStatus`, `statusHistory`, the status/refund timestamp and amount
fields, and the carrier `shiprocket` sub-record. -/
def webhookItemFrame (a b : OrderItem) : Prop :=
  a.id = b.id ∧ a.quantity = b.quantity ∧ a.productId = b.productId ∧
  a.productName = b.productName ∧ a.colorName = b.colorName ∧ a.size = b.size ∧
  a.amount = b.amount ∧ a.cancelId = b.cancelId ∧ a.cancelledAt = b.cancelledAt ∧
  a.returnId = b.returnId ∧ a.returnRequestedAt = b.returnRequestedAt ∧
  a.returnRequestNote = b.returnRequestNote ∧ a.refundStatus = b.refundStatus ∧
  a.refundRequestedAt = b.refundRequestedAt ∧ a.refundRequestNote = b.refundRequestNote ∧
  a.refundAccountDetails = b.refundAccountDetails ∧ a.refundApprovedAt = b.refundApprovedAt ∧
  a.refundApprovedBy = b.refundApprovedBy ∧ a.refundRejectedAt = b.refundRejectedAt ∧
  a.refundRejectedBy = b.refundRejectedBy ∧ a.refundRejectionReason = b.refundRejectionReason

/-- A three-unit item whose return was requested (eligible for
return-cancel). -/
def returnRequestedItem : OrderItem :=
  { id := 6, quantity := 3, orderStatus := "Return Requested",
    returnId := some "RET-9", returnRequestedAt := some 8000,
    statusHistory := deliveredHistory ++ [⟨"Return Requested", none, 8000⟩] }

/-- A one-item order holding `returnRequestedItem`. -/
def returnRequestedOrder : Order := { orderId := "ORD-6", items := [returnRequestedItem] }

/-! ## Theorems -/

theorem canTransition_iff (c t : String) : canTransition c t = true ↔ isGraphEdge c t := by
  unfold canTransition statusNext isGraphEdge
  split_ifs with h1 h2 h3 h4 h5 h6 h7 h8 h9 <;>
    simp_all [List.contains, List.elem, beq_iff_eq] <;>
    (repeat' split) <;>
    simp_all [beq_iff_eq]

/-- Only `Delivered` has an edge to `Return Requested`. -/
theorem canTransition_returnRequested (c : String) :
    canTransition c "Return Requested" = true ↔ c = "Delivered" := by
  rw [canTransition_iff]
  unfold isGraphEdge
  constructor
  · rintro (⟨h, h' | h'⟩ | ⟨h, h'⟩ | ⟨h, h'⟩ | ⟨h, h'⟩ | ⟨h, h' | h'⟩ | ⟨h, h' | h'⟩ | ⟨h, h'⟩) <;>
      simp_all
  · intro h
    subst h
    simp

/-- C1: `canTransition(current, target)` is true exactly when `target`
is in the adjacency list of `current` in the fixed 9-node status graph,
and is false (it is a total function, so it never throws) whenever
`current` is not a key of the status table — in particular it is false
for every pair that is not a graph edge. -/
theorem C1_canTransition_matches_graph :
    (∀ c t : String, canTransition c t = true ↔ isGraphEdge c t) ∧
    (∀ c t : String, statusNext c = none → canTransition c t = false) := by
  constructor
  · exact canTransition_iff
  · intro c t h
    unfold canTransition
    rw [h]

/-- Witness for C1 at concrete inputs: an unknown status has no
outgoing transition. -/
theorem C1_canTransition_matches_graph_witness :
    canTransition "In Transit" "Shipped" = false :=
  C1_canTransition_matches_graph.2 "In Transit" "Shipped" (by decide)

theorem findItem_get {order : Order} {itemId i : Nat} {item : OrderItem}
    (h : findItem order itemId = some (i, item)) :
    order.items[i]? = some item := by
  unfold findItem at h
  cases hidx : order.items.findIdx? (fun it => it.id == itemId) with
  | none => rw [hidx] at h; simp at h
  | some idx =>
    rw [hidx] at h
    simp only [Option.map_eq_some'] at h
    obtain ⟨it, hget, heq⟩ := h
    obtain ⟨h1, h2⟩ := Prod.mk.injEq .. ▸ heq
    subst h1
    subst h2
    exact hget

theorem totalQty_append (l1 l2 : List OrderItem) :
    totalQty (l1 ++ l2) = totalQty l1 + totalQty l2 := by
  simp [totalQty]

theorem totalQty_set {l : List OrderItem} {i : Nat} {item : OrderItem} (a : OrderItem)
    (h : l[i]? = some item) :
    totalQty (l.set i a) + item.quantity = totalQty l + a.quantity := by
  induction l generalizing i with
  | nil => simp at h
  | cons x xs ih =>
    cases i with
    | zero =>
      simp only [List.getElem?_cons_zero, Option.some.injEq] at h
      subst h
      simp [totalQty]
      omega
    | succ n =>
      simp only [List.getElem?_cons_succ] at h
      have := ih h
      simp [totalQty] at this ⊢
      omega

theorem totalQty_splitOrUpdate {order : Order} {i : Nat} {item : OrderItem} {q : Nat}
    (fb ff : OrderItem → OrderItem)
    (hget : order.items[i]? = some item)
    (_hq : q ≤ item.quantity)
    (hf : (ff item).quantity = item.quantity) :
    totalQty (splitOrUpdate order i item q fb ff).items = totalQty order.items := by
  unfold splitOrUpdate
  split_ifs with h
  · have hset := totalQty_set { item with quantity := item.quantity - q } hget
    simp only
    rw [totalQty_append]
    simp [totalQty] at hset ⊢
    omega
  · have hset := totalQty_set (ff item) hget
    simp only
    omega

theorem cancelOrderItem_totalQty {order order2 : Order} {itemId q : Nat}
    {note : Option String} {freshId : Nat} {now : Millis}
    (h : cancelOrderItem order itemId q note freshId now = .ok order2) :
    totalQty order2.items = totalQty order.items := by
  unfold cancelOrderItem at h
  split at h
  · exact absurd h (by simp)
  · split at h
    · exact absurd h (by simp)
    · rename_i i item hfind
      split at h
      · exact absurd h (by simp)
      · split at h
        · exact absurd h (by simp)
        · rename_i hcan hqty
          injection h with h2
          subst h2
          exact totalQty_splitOrUpdate _ _ (findItem_get hfind) (by omega) rfl

theorem returnOrderItem_totalQty {order order2 : Order} {itemId q : Nat}
    {note returnId : String} {freshId : Nat} {now : Millis}
    (h : returnOrderItem order itemId q note returnId freshId now = .ok order2) :
    totalQty order2.items = totalQty order.items := by
  unfold returnOrderItem at h
  split at h
  · exact absurd h (by simp)
  · split at h
    · exact absurd h (by simp)
    · split at h
      · exact absurd h (by simp)
      · rename_i i item hfind
        split at h
        · exact absurd h (by simp)
        · split at h
          · exact absurd h (by simp)
          · rename_i hcan hqty
            split at h
            · exact absurd h (by simp)
            · split at h
              · exact absurd h (by simp)
              · injection h with h2
                subst h2
                exact totalQty_splitOrUpdate _ _ (findItem_get hfind) (by omega) rfl

theorem processRefund_totalQty {order order2 : Order} {itemId : Nat} {amt : Int}
    {q : Option Nat} {now : Millis}
    (h : processRefund order itemId amt q now = .ok order2) :
    totalQty order2.items = totalQty order.items := by
  unfold processRefund at h
  split at h
  · exact absurd h (by simp)
  · split at h
    · exact absurd h (by simp)
    · rename_i i item hfind
      repeat' split at h
      all_goals try dsimp only at h
      all_goals
        first
        | (injection h with h2
           subst h2
           exact totalQty_splitOrUpdate _ _ (findItem_get hfind) (by omega) rfl)
        | exact absurd h (by simp)

theorem processReturnCancel_totalQty {order order2 : Order} {itemId : Nat}
    {q : Option Nat} {now : Millis}
    (h : processReturnCancel order itemId q now = .ok order2) :
    totalQty order2.items = totalQty order.items := by
  unfold processReturnCancel at h
  split at h
  · exact absurd h (by simp)
  · rename_i i item hfind
    repeat' split at h
    all_goals try dsimp only at h
    all_goals
      first
      | (injection h with h2
         subst h2
         exact totalQty_splitOrUpdate _ _ (findItem_get hfind) (by omega) rfl)
      | exact absurd h (by simp)

theorem runOp_totalQty (order : Order) (op : SplitOp) :
    totalQty (runOp order op).items = totalQty order.items := by
  cases op with
  | cancel itemId q note freshId now =>
    simp only [runOp]
    cases hc : cancelOrderItem order itemId q note freshId now with
    | ok o => exact cancelOrderItem_totalQty hc
    | error e => rfl
  | returnRequest itemId q note returnId freshId now =>
    simp only [runOp]
    cases hc : returnOrderItem order itemId q note returnId freshId now with
    | ok o => exact returnOrderItem_totalQty hc
    | error e => rfl
  | refund itemId amt q now =>
    simp only [runOp]
    cases hc : processRefund order itemId amt q now with
    | ok o => exact processRefund_totalQty hc
    | error e => rfl
  | returnCancel itemId q now =>
    simp only [runOp]
    cases hc : processReturnCancel order itemId q now with
    | ok o => exact processReturnCancel_totalQty hc
    | error e => rfl

/-- C3: on a sub-quantity transition the surviving original item and
the appended sibling hold `quantity_before - q` and `q` respectively,
so their quantities sum to the pre-transition quantity; and across any
sequence of requests on the splitting driver paths (user/admin cancel,
return request, refund, return-cancel) the total quantity over the
order's items — the original item together with everything split off
it — is conserved. -/
theorem C3_quantity_conservation :
    (∀ (order order2 : Order) (itemId q : Nat) (note : Option String)
       (freshId : Nat) (now : Millis) (i : Nat) (item : OrderItem),
       findItem order itemId = some (i, item) →
       q < item.quantity →
       cancelOrderItem order itemId q note freshId now = .ok order2 →
       ∃ original sibling,
         order2.items[i]? = some original ∧
         order2.items.getLast? = some sibling ∧
         sibling.quantity = q ∧
         original.quantity + sibling.quantity = item.quantity) ∧
    (∀ (ops : List SplitOp) (order : Order),
       totalQty (runOps ops order).items = totalQty order.items) := by
  constructor
  · intro order order2 itemId q note freshId now i item hfind hlt hok
    have hget := findItem_get hfind
    have hlen : i < order.items.length := (List.getElem?_eq_some.mp hget).1
    unfold cancelOrderItem at hok
    split at hok
    · exact absurd hok (by simp)
    · rw [hfind] at hok
      dsimp only at hok
      split at hok
      · exact absurd hok (by simp)
      · split at hok
        · exact absurd hok (by simp)
        · injection hok with h2
          subst h2
          unfold splitOrUpdate
          rw [if_pos hlt]
          refine ⟨{ item with quantity := item.quantity - q },
                  { item with
                     id := freshId, orderStatus := "Cancelled",
                     statusHistory := item.statusHistory ++ [⟨"Cancelled", note, now⟩],
                     quantity := q }, ?_, ?_, ?_, ?_⟩
          · rw [List.getElem?_append_left (by simpa using hlen)]
            exact List.getElem?_set_eq_of_lt _ hlen
          · exact List.getLast?_concat _
          · rfl
          · dsimp only
            omega
  · intro ops order
    induction ops generalizing order with
    | nil => rfl
    | cons op rest ih =>
      unfold runOps at ih ⊢
      rw [List.foldl_cons]
      exact (ih (runOp order op)).trans (runOp_totalQty order op)

/-- Witness for C3 at concrete inputs: cancelling 2 of 5 units leaves
3 + 2 units across the two resulting items. -/
theorem C3_quantity_conservation_witness :
    ∃ original sibling,
      sampleCancelResult.items[0]? = some original ∧
      sampleCancelResult.items.getLast? = some sibling ∧
      sibling.quantity = 2 ∧
      original.quantity + sibling.quantity = sampleItem.quantity :=
  C3_quantity_conservation.1 sampleOrder sampleCancelResult 1 2 none 7 0 0 sampleItem
    (by decide) (by decide) (by rfl)

theorem daysPassed_eq_dayDiff (a b : Millis) :
    daysPassed a b = Int.fdiv a 86400000 - Int.fdiv b 86400000 := by
  unfold daysPassed truncateToMidnight
  rw [← Int.mul_sub]
  rw [Int.mul_fdiv_cancel_left _ (by decide)]

/-- C5: a return request succeeds only when the item is currently
`Delivered`, its history holds a `Delivered` entry, and the calendar-day
difference between now and that entry's timestamp (both truncated to
midnight) is at most 7; with every other precondition met, a missing
`Delivered` entry fails with the missing-delivery-record error, a
request exactly 7 days after delivery succeeds, and one 8 or more days
after delivery fails with the return-window-expired error. -/
theorem C5_return_window :
    (∀ (order order2 : Order) (itemId q : Nat) (note returnId : String)
       (freshId : Nat) (now : Millis),
       returnOrderItem order itemId q note returnId freshId now = .ok order2 →
       ∃ i item, findItem order itemId = some (i, item) ∧
         item.orderStatus = "Delivered" ∧
         ∃ e, item.statusHistory.find? (fun x => x.status == "Delivered") = some e ∧
           daysPassed now e.changedAt ≤ 7) ∧
    (∀ (order : Order) (itemId q : Nat) (note returnId : String)
       (freshId : Nat) (now : Millis) (i : Nat) (item : OrderItem),
       1 ≤ q → note ≠ "" → findItem order itemId = some (i, item) →
       item.orderStatus = "Delivered" → q ≤ item.quantity →
       item.statusHistory.find? (fun x => x.status == "Delivered") = none →
       returnOrderItem order itemId q note returnId freshId now =
         .error .missingDeliveryRecord) ∧
    (∀ (order : Order) (itemId q : Nat) (note returnId : String)
       (freshId : Nat) (now : Millis) (i : Nat) (item : OrderItem)
       (e : StatusHistoryEntry),
       1 ≤ q → note ≠ "" → findItem order itemId = some (i, item) →
       item.orderStatus = "Delivered" → q ≤ item.quantity →
       item.statusHistory.find? (fun x => x.status == "Delivered") = some e →
       daysPassed now e.changedAt = 7 →
       ∃ order2, returnOrderItem order itemId q note returnId freshId now = .ok order2) ∧
    (∀ (order : Order) (itemId q : Nat) (note returnId : String)
       (freshId : Nat) (now : Millis) (i : Nat) (item : OrderItem)
       (e : StatusHistoryEntry),
       1 ≤ q → note ≠ "" → findItem order itemId = some (i, item) →
       item.orderStatus = "Delivered" → q ≤ item.quantity →
       item.statusHistory.find? (fun x => x.status == "Delivered") = some e →
       8 ≤ daysPassed now e.changedAt →
       returnOrderItem order itemId q note returnId freshId now =
         .error .returnWindowExpired) := by
  refine ⟨?_, ?_, ?_, ?_⟩
  · intro order order2 itemId q note returnId freshId now hok
    unfold returnOrderItem at hok
    split at hok
    · exact absurd hok (by simp)
    · split at hok
      · exact absurd hok (by simp)
      · split at hok
        · exact absurd hok (by simp)
        · rename_i i item hfind
          split at hok
          · exact absurd hok (by simp)
          · rename_i hcan
            split at hok
            · exact absurd hok (by simp)
            · split at hok
              · exact absurd hok (by simp)
              · rename_i e hdel
                split at hok
                · exact absurd hok (by simp)
                · rename_i hwin
                  exact ⟨i, item, hfind,
                    (canTransition_returnRequested _).mp (not_not.mp hcan),
                    e, hdel, by omega⟩
  · intro order itemId q note returnId freshId now i item hq hnote hfind hstatus hqty hdel
    unfold returnOrderItem
    rw [if_neg (by omega), if_neg hnote, hfind]
    dsimp only
    rw [if_neg (by simp [(canTransition_returnRequested _).mpr hstatus]),
        if_neg (by omega), hdel]
  · intro order itemId q note returnId freshId now i item e hq hnote hfind hstatus hqty hdel hdays
    apply Exists.intro
    unfold returnOrderItem
    rw [if_neg (by omega), if_neg hnote, hfind]
    dsimp only
    rw [if_neg (by simp [(canTransition_returnRequested _).mpr hstatus]),
        if_neg (by omega), hdel]
    dsimp only
    rw [if_neg (by omega)]
  · intro order itemId q note returnId freshId now i item e hq hnote hfind hstatus hqty hdel hdays
    unfold returnOrderItem
    rw [if_neg (by omega), if_neg hnote, hfind]
    dsimp only
    rw [if_neg (by simp [(canTransition_returnRequested _).mpr hstatus]),
        if_neg (by omega), hdel]
    dsimp only
    rw [if_pos (by omega)]

/-- Witness for C5 at concrete inputs: a return requested exactly
7 days after the day-2 delivery of `deliveredItem` succeeds. -/
theorem C5_return_window_witness :
    ∃ order2,
      returnOrderItem deliveredOrder 2 1 "damaged" "RET-1" 9 (9 * 86400000 + 123) =
        .ok order2 :=
  C5_return_window.2.2.1 deliveredOrder 2 1 "damaged" "RET-1" 9 (9 * 86400000 + 123)
    0 deliveredItem ⟨"Delivered", none, 172800000⟩
    (by decide) (by decide) (by rfl) (by rfl) (by decide) (by rfl) (by decide)

/-- C6 counterexample: cancelling the return of 1 of the 3 units of
`returnRequestedItem` (whose `_id` is 6) splits the batch, and the
pushed sibling — `{...item.toObject(), ...}` with no `delete _id` —
keeps the parent's identifier, so the resulting order carries two items
both with id 6, refuting the claim that every splitting path gives the
sibling a fresh identifier distinct from the parent's and every other
item's. (The admin refund split has the same aliasing.) -/
theorem C6_refund_sibling_keeps_parent_id :
    (processReturnCancel returnRequestedOrder 6 (some 1) 9000).map
        (fun o => o.items.map (fun it => it.id)) = .ok [6, 6] ∧
    (processRefund cancelledOrder 3 500 (some 1) 2000).map
        (fun o => o.items.map (fun it => it.id)) = .ok [3, 3] := ⟨rfl, rfl⟩

/-- C6 amended: on the user/admin cancel and the return-request
splitting paths the sibling copy drops the parent `_id` and is
persisted under a fresh identifier, its history being an independent
copy of the parent's extended by the new entry while the parent's
history is untouched; on the admin refund (and return-cancel) splitting
paths the sibling is likewise an independent by-value copy with its own
extended history, but it retains the parent's identifier. -/
theorem C6_split_identity_amended :
    (∀ (order order2 : Order) (itemId q : Nat) (note : Option String)
       (freshId : Nat) (now : Millis) (i : Nat) (item : OrderItem),
       findItem order itemId = some (i, item) →
       q < item.quantity →
       cancelOrderItem order itemId q note freshId now = .ok order2 →
       ∃ original sibling,
         order2.items[i]? = some original ∧
         order2.items.getLast? = some sibling ∧
         sibling.id = freshId ∧
         original.id = item.id ∧
         sibling.statusHistory = item.statusHistory ++ [⟨"Cancelled", note, now⟩] ∧
         original.statusHistory = item.statusHistory) ∧
    (∀ (order order2 : Order) (itemId q : Nat) (note returnId : String)
       (freshId : Nat) (now : Millis) (i : Nat) (item : OrderItem),
       findItem order itemId = some (i, item) →
       q < item.quantity →
       returnOrderItem order itemId q note returnId freshId now = .ok order2 →
       ∃ original sibling,
         order2.items[i]? = some original ∧
         order2.items.getLast? = some sibling ∧
         sibling.id = freshId ∧
         original.id = item.id ∧
         sibling.statusHistory = item.statusHistory ++
           [⟨"Return Requested", some note, now⟩] ∧
         original.statusHistory = item.statusHistory) ∧
    (∀ (order order2 : Order) (itemId : Nat) (q : Nat) (now : Millis)
       (i : Nat) (item : OrderItem),
       findItem order itemId = some (i, item) →
       0 < q → q < item.quantity →
       processReturnCancel order itemId (some q) now = .ok order2 →
       ∃ sibling,
         order2.items.getLast? = some sibling ∧
         sibling.id = item.id ∧
         sibling.statusHistory = item.statusHistory ++
           [⟨"Return Cancelled", some "Return request cancelled by admin", now⟩]) ∧
    (∀ (order order2 : Order) (itemId : Nat) (amt : Int) (q : Nat) (now : Millis)
       (i : Nat) (item : OrderItem),
       findItem order itemId = some (i, item) →
       0 < q → q < item.quantity →
       processRefund order itemId amt (some q) now = .ok order2 →
       ∃ sibling,
         order2.items.getLast? = some sibling ∧
         sibling.id = item.id ∧
         sibling.statusHistory = item.statusHistory ++
           [⟨"Refunded", some "Refund processed by admin", now⟩]) := by
  refine ⟨?_, ?_, ?_, ?_⟩
  · intro order order2 itemId q note freshId now i item hfind hlt hok
    have hget := findItem_get hfind
    have hlen : i < order.items.length := (List.getElem?_eq_some.mp hget).1
    unfold cancelOrderItem at hok
    split at hok
    · exact absurd hok (by simp)
    · rw [hfind] at hok
      dsimp only at hok
      split at hok
      · exact absurd hok (by simp)
      · split at hok
        · exact absurd hok (by simp)
        · injection hok with h2
          subst h2
          unfold splitOrUpdate
          rw [if_pos hlt]
          refine ⟨{ item with quantity := item.quantity - q },
                  { item with
                     id := freshId, orderStatus := "Cancelled",
                     statusHistory := item.statusHistory ++ [⟨"Cancelled", note, now⟩],
                     quantity := q }, ?_, ?_, rfl, rfl, rfl, rfl⟩
          · rw [List.getElem?_append_left (by simpa using hlen)]
            exact List.getElem?_set_eq_of_lt _ hlen
          · exact List.getLast?_concat _
  · intro order order2 itemId q note returnId freshId now i item hfind hlt hok
    have hget := findItem_get hfind
    have hlen : i < order.items.length := (List.getElem?_eq_some.mp hget).1
    unfold returnOrderItem at hok
    rw [hfind] at hok
    dsimp only at hok
    split at hok
    · exact absurd hok (by simp)
    · split at hok
      · exact absurd hok (by simp)
      · split at hok
        · exact absurd hok (by simp)
        · split at hok
          · exact absurd hok (by simp)
          · split at hok
            · exact absurd hok (by simp)
            · split at hok
              · exact absurd hok (by simp)
              · injection hok with h2
                subst h2
                unfold splitOrUpdate
                rw [if_pos hlt]
                refine ⟨{ item with quantity := item.quantity - q },
                        { item with
                           id := freshId, orderStatus := "Return Requested",
                           returnId := some returnId,
                           returnRequestedAt := some now,
                           returnRequestNote := some note,
                           statusHistory := item.statusHistory ++
                             [⟨"Return Requested", some note, now⟩],
                           quantity := q }, ?_, ?_, rfl, rfl, rfl, rfl⟩
                · rw [List.getElem?_append_left (by simpa using hlen)]
                  exact List.getElem?_set_eq_of_lt _ hlen
                · exact List.getLast?_concat _
  · intro order order2 itemId q now i item hfind hpos hlt hok
    have hdq : defaultedQty (some q) item.quantity = q := by
      simp [defaultedQty, hpos]
    unfold processReturnCancel at hok
    rw [hfind] at hok
    dsimp only at hok
    rw [hdq] at hok
    split at hok
    · exact absurd hok (by simp)
    · split at hok
      · exact absurd hok (by simp)
      · injection hok with h2
        subst h2
        unfold splitOrUpdate
        rw [if_pos hlt]
        refine ⟨{ item with
                   orderStatus := "Return Cancelled",
                   statusHistory := item.statusHistory ++
                     [⟨"Return Cancelled", some "Return request cancelled by admin", now⟩],
                   quantity := q }, ?_, rfl, rfl⟩
        exact List.getLast?_concat _
  · intro order order2 itemId amt q now i item hfind hpos hlt hok
    have hdq : defaultedQty (some q) item.quantity = q := by
      simp [defaultedQty, hpos]
    unfold processRefund at hok
    split at hok
    · exact absurd hok (by simp)
    · rw [hfind] at hok
      dsimp only at hok
      rw [hdq] at hok
      split at hok
      · exact absurd hok (by simp)
      · split at hok
        · exact absurd hok (by simp)
        · injection hok with h2
          subst h2
          unfold splitOrUpdate
          rw [if_pos hlt]
          refine ⟨{ item with
                     orderStatus := "Refunded",
                     refundAmount := some amt,
                     refundStatus := some "Refunded",
                     refundProcessedAt := some now,
                     statusHistory := item.statusHistory ++
                       [⟨"Refunded", some "Refund processed by admin", now⟩],
                     quantity := q }, ?_, rfl, rfl⟩
          exact List.getLast?_concat _

/-- Witness for the amended C6 at concrete inputs: the user-cancel
split of `sampleItem` (id 1) pushes a sibling carrying fresh id 7 and
the extended history copy. -/
theorem C6_split_identity_amended_witness :
    ∃ original sibling,
      sampleCancelResult.items[0]? = some original ∧
      sampleCancelResult.items.getLast? = some sibling ∧
      sibling.id = 7 ∧
      original.id = sampleItem.id ∧
      sibling.statusHistory = sampleItem.statusHistory ++ [⟨"Cancelled", none, 0⟩] ∧
      original.statusHistory = sampleItem.statusHistory :=
  C6_split_identity_amended.1 sampleOrder sampleCancelResult 1 2 none 7 0 0 sampleItem
    (by rfl) (by decide) (by rfl)

/-- C8: a refund request is accepted only when the item's status has a
graph edge to `Refunded`, and is refused while a request is already
open (`refundRequestedAt` set) or the item was already refunded; admin
approve and reject each succeed only from `refundStatus = PENDING`,
stamping `REFUNDED`/`refundApprovedAt` resp. `REJECTED`/`refundRejectedAt`
with the reason, so a second approval of the same request fails and an
approved request can never also be rejected. -/
theorem C8_refund_request_lifecycle :
    (∀ (item out : OrderItem) (q : Nat) (d : RefundAccountDetails)
       (note : Option String) (now : Millis),
       requestRefund item q d note now = .ok out →
       canTransition item.orderStatus "Refunded" = true ∧
       item.refundRequestedAt = none ∧
       item.refundStatus ≠ some "REFUNDED" ∧
       out.refundStatus = some "PENDING" ∧
       out.refundRequestedAt = some now) ∧
    (∀ (item out : OrderItem) (q : Nat) (d : RefundAccountDetails)
       (note : Option String) (now : Millis),
       item.refundRequestedAt.isSome →
       requestRefund item q d note now ≠ .ok out) ∧
    (∀ (item out : OrderItem) (q : Nat) (d : RefundAccountDetails)
       (note : Option String) (now : Millis),
       item.refundStatus = some "REFUNDED" →
       requestRefund item q d note now ≠ .ok out) ∧
    (∀ (item out : OrderItem) (amt : Int) (adminId : Nat) (now : Millis),
       approveRefundRequest item amt adminId now = .ok out →
       item.refundStatus = some "PENDING" ∧
       item.refundRequestedAt.isSome ∧
       out.refundStatus = some "REFUNDED" ∧
       out.refundApprovedAt = some now) ∧
    (∀ (item out : OrderItem) (reason : String) (adminId : Nat) (now : Millis),
       rejectRefundRequest item reason adminId now = .ok out →
       item.refundStatus = some "PENDING" ∧
       item.refundRequestedAt.isSome ∧
       out.refundStatus = some "REJECTED" ∧
       out.refundRejectedAt = some now ∧
       out.refundRejectionReason = some reason) ∧
    (∀ (item item2 : OrderItem) (a1 : Int) (u1 : Nat) (t1 : Millis),
       approveRefundRequest item a1 u1 t1 = .ok item2 →
       ∀ (a2 : Int) (u2 : Nat) (t2 : Millis) (out : OrderItem),
         approveRefundRequest item2 a2 u2 t2 ≠ .ok out) ∧
    (∀ (item item2 : OrderItem) (a1 : Int) (u1 : Nat) (t1 : Millis),
       approveRefundRequest item a1 u1 t1 = .ok item2 →
       ∀ (r : String) (u2 : Nat) (t2 : Millis) (out : OrderItem),
         rejectRefundRequest item2 r u2 t2 ≠ .ok out) := by
  refine ⟨?_, ?_, ?_, ?_, ?_, ?_, ?_⟩
  · intro item out q d note now hok
    unfold requestRefund at hok
    split_ifs at hok with h1 h2 h3 h4 h5 h6
    injection hok with h7
    subst h7
    exact ⟨h3, by simpa using h5, h4, rfl, rfl⟩
  · intro item out q d note now hreq hok
    unfold requestRefund at hok
    split_ifs at hok with h1 h2 h3 h4 h5 h6
  · intro item out q d note now hst hok
    unfold requestRefund at hok
    split_ifs at hok with h1 h2 h3 h4 h5 h6
  · intro item out amt adminId now hok
    unfold approveRefundRequest at hok
    split_ifs at hok with h1 h2
    injection hok with h3
    subst h3
    push_neg at h2
    exact ⟨h2.2, Option.isSome_iff_ne_none.mpr h2.1, rfl, rfl⟩
  · intro item out reason adminId now hok
    unfold rejectRefundRequest at hok
    split_ifs at hok with h1 h2
    injection hok with h3
    subst h3
    push_neg at h2
    exact ⟨h2.2, Option.isSome_iff_ne_none.mpr h2.1, rfl, rfl, rfl⟩
  · intro item item2 a1 u1 t1 h1 a2 u2 t2 out heq
    unfold approveRefundRequest at h1
    split_ifs at h1 with hx1 hx2
    injection h1 with h3
    subst h3
    unfold approveRefundRequest at heq
    split_ifs at heq with hy1 hy2 <;> simp_all
  · intro item item2 a1 u1 t1 h1 r u2 t2 out heq
    unfold approveRefundRequest at h1
    split_ifs at h1 with hx1 hx2
    injection h1 with h3
    subst h3
    unfold rejectRefundRequest at heq
    split_ifs at heq with hy1 hy2 <;> simp_all

/-- Witness for C8 at concrete inputs: after admin 11 approves the
pending request on `pendingRefundItem`, approving it again (any amount,
admin, time) is rejected. -/
theorem C8_refund_request_lifecycle_witness :
    approveRefundRequest approvedRefundItem 700 12 7000 ≠ .ok approvedRefundItem :=
  C8_refund_request_lifecycle.2.2.2.2.2.1 pendingRefundItem approvedRefundItem
    500 11 6000 (by rfl) 700 12 7000 approvedRefundItem

/-- C2 (failing input): the order-status webhook path mutates
`orderStatus` without consulting `canTransition` — a SHIPPED payload
against a `Delivered` item moves it backward to `Shipped` and appends a
history entry, although `canTransition "Delivered" "Shipped"` is false;
the claim requires every such operation to abort with no writes. -/
theorem C2_webhook_bypasses_graph_check :
    canTransition "Delivered" "Shipped" = false ∧
    (handleShiprocketWebhook shippedPayload 259300000 webhookOrder).map
        (fun o => o.items.map (fun it => (it.orderStatus, it.statusHistory.length)))
      = .ok [("Shipped", 4)] := ⟨rfl, rfl⟩

/-- C7 (failing input): every item of `adhocDoneOrder` already carries
`adhocOrderCreated = true`, yet re-invoking step 1 is accepted — the
guard reads `order.shiprocket`, a path the order schema never declares —
and the fresh carrier ids overwrite the items' records. -/
theorem C7_step1_reinvocation_not_rejected :
    ∃ o, createAdhocOrderStep adhocDoneOrder (some "SR10") (some "SH10") (some "DHL") = .ok o ∧
      o.items.map (fun it => it.shiprocket.map (fun s => (s.orderId, s.flags.adhocOrderCreated)))
        = [some (some "SR10", true)] := ⟨_, rfl, rfl⟩

theorem applyOrderWebhook_status_eq (d : WebhookData) (ns note : String)
    (now : Millis) (item : OrderItem) :
    (applyOrderWebhookToItem d ns note now item).orderStatus = ns := by
  unfold applyOrderWebhookToItem
  by_cases h : item.orderStatus = ns <;> simp [h] <;> split_ifs <;> rfl

theorem applyOrderWebhook_skip (d : WebhookData) (ns note : String)
    (now : Millis) (item : OrderItem) (h : item.orderStatus = ns) :
    (applyOrderWebhookToItem d ns note now item).statusHistory = item.statusHistory ∧
    (applyOrderWebhookToItem d ns note now item).orderStatus = item.orderStatus := by
  unfold applyOrderWebhookToItem
  simp [h]

theorem applyOrderWebhook_write (d : WebhookData) (ns note : String)
    (now : Millis) (item : OrderItem) (h : item.orderStatus ≠ ns) :
    (applyOrderWebhookToItem d ns note now item).statusHistory
      = item.statusHistory ++ [⟨ns, some note, now⟩] := by
  unfold applyOrderWebhookToItem createStatusHistoryEntry
  simp [h]
  split_ifs <;> rfl

theorem returnWebhook_always_errors (raw : RawWebhookPayload) (now : Millis)
    (order : Order) :
    handleShiprocketReturnWebhook raw now order = .error "Missing required data" := rfl

/-- C4: on the order-status webhook path an item already at the mapped
status keeps its history and status untouched (only carrier metadata is
refreshed), and after any first application the item sits at the mapped
status, so replaying the same payload changes neither history nor
status — one net entry when the first call transitioned; the
return-status family rejects every call before mutating (its handler
destructures keys the normaliser never produces), and the tracking
family never touches status or history. -/
theorem C4_webhook_replay_idempotent :
    (∀ (raw : RawWebhookPayload) (now : Millis) (order order2 : Order),
       handleShiprocketWebhook raw now order = .ok order2 →
       ∀ (i : Nat) (a : OrderItem), order.items[i]? = some a →
         a.orderStatus = mapShiprocketStatus
           ((normalizeShiprocketPayload raw now).status.getD "") →
         ∃ b, order2.items[i]? = some b ∧
           b.statusHistory = a.statusHistory ∧ b.orderStatus = a.orderStatus) ∧
    (∀ (d : WebhookData) (ns note : String) (t1 t2 : Millis) (item : OrderItem),
       (applyOrderWebhookToItem d ns note t2
           (applyOrderWebhookToItem d ns note t1 item)).statusHistory
         = (applyOrderWebhookToItem d ns note t1 item).statusHistory ∧
       (applyOrderWebhookToItem d ns note t2
           (applyOrderWebhookToItem d ns note t1 item)).orderStatus
         = (applyOrderWebhookToItem d ns note t1 item).orderStatus ∧
       (item.orderStatus ≠ ns →
         (applyOrderWebhookToItem d ns note t1 item).statusHistory
           = item.statusHistory ++ [⟨ns, some note, t1⟩])) ∧
    (∀ (raw : RawWebhookPayload) (now : Millis) (order : Order),
       handleShiprocketReturnWebhook raw now order = .error "Missing required data") ∧
    (∀ (raw : RawWebhookPayload) (now : Millis) (order order2 : Order),
       handleShiprocketTrackingWebhook raw now order = .ok order2 →
       order2.items.map (fun it => it.orderStatus)
         = order.items.map (fun it => it.orderStatus) ∧
       order2.items.map (fun it => it.statusHistory)
         = order.items.map (fun it => it.statusHistory)) := by
  refine ⟨?_, ?_, ?_, ?_⟩
  · intro raw now order order2 hok i a ha hst
    unfold handleShiprocketWebhook at hok
    dsimp only at hok
    split at hok
    · rename_i order_id status hoid hstat
      split at hok
      · exact absurd hok (by simp)
      · injection hok with h2
        subst h2
        have hb : ({ order with items := order.items.map (fun it =>
            if srOrderId it == some order_id then
              applyOrderWebhookToItem (normalizeShiprocketPayload raw now)
                (mapShiprocketStatus status)
                (getStatusNote status (normalizeShiprocketPayload raw now).courier_name) now it
            else it) } : Order).items[i]?
            = some (if srOrderId a == some order_id then
                applyOrderWebhookToItem (normalizeShiprocketPayload raw now)
                  (mapShiprocketStatus status)
                  (getStatusNote status (normalizeShiprocketPayload raw now).courier_name) now a
              else a) := by
          simp only [List.getElem?_map, ha, Option.map_some']
        have hst2 : a.orderStatus = mapShiprocketStatus status := by
          rw [hstat] at hst
          simpa using hst
        by_cases hm : srOrderId a == some order_id
        · rw [if_pos hm] at hb
          exact ⟨_, hb,
            (applyOrderWebhook_skip _ _ _ _ _ hst2).1,
            (applyOrderWebhook_skip _ _ _ _ _ hst2).2⟩
        · rw [if_neg hm] at hb
          exact ⟨a, hb, rfl, rfl⟩
    · exact absurd hok (by simp)
  · intro d ns note t1 t2 item
    refine ⟨(applyOrderWebhook_skip _ _ _ _ _ (applyOrderWebhook_status_eq d ns note t1 item)).1,
            (applyOrderWebhook_skip _ _ _ _ _ (applyOrderWebhook_status_eq d ns note t1 item)).2,
            ?_⟩
    intro hne
    exact applyOrderWebhook_write d ns note t1 item hne
  · exact returnWebhook_always_errors
  · intro raw now order order2 hok
    unfold handleShiprocketTrackingWebhook at hok
    dsimp only at hok
    split at hok
    · rename_i order_id shipment_id hoid hsid
      split at hok
      · exact absurd hok (by simp)
      · injection hok with h2
        subst h2
        constructor
        · simp only [List.map_map]
          apply List.map_congr_left
          intro it _
          by_cases hm : srOrderId it == some order_id <;>
            simp [hm, Function.comp, applyTrackingWebhookToItem]
        · simp only [List.map_map]
          apply List.map_congr_left
          intro it _
          by_cases hm : srOrderId it == some order_id <;>
            simp [hm, Function.comp, applyTrackingWebhookToItem]
    · exact absurd hok (by simp)

/-- Witness for C4 at concrete inputs: a DELIVERED payload against the
already-`Delivered` `webhookItem` leaves history and status unchanged. -/
theorem C4_webhook_replay_idempotent_witness :
    ∃ b, webhookSkipResult.items[0]? = some b ∧
      b.statusHistory = webhookItem.statusHistory ∧
      b.orderStatus = webhookItem.orderStatus :=
  C4_webhook_replay_idempotent.1 deliveredPayload 300000000 webhookOrder
    webhookSkipResult (by rfl) 0 webhookItem (by rfl) (by rfl)

theorem webhookItemFrame_refl (a : OrderItem) : webhookItemFrame a a := by
  unfold webhookItemFrame
  exact ⟨rfl, rfl, rfl, rfl, rfl, rfl, rfl, rfl, rfl, rfl, rfl, rfl, rfl, rfl, rfl,
         rfl, rfl, rfl, rfl, rfl, rfl⟩

theorem orderWebhook_frame (d : WebhookData) (ns note : String) (now : Millis)
    (item : OrderItem) : webhookItemFrame item (applyOrderWebhookToItem d ns note now item) := by
  unfold webhookItemFrame applyOrderWebhookToItem
  by_cases h : item.orderStatus = ns <;> simp [h] <;> split_ifs <;> simp

theorem returnWebhook_frame (d : WebhookData) (ns note : String) (now : Millis)
    (rid : String) (item : OrderItem) :
    webhookItemFrame item (applyReturnWebhookToItem d ns note now rid item) := by
  unfold webhookItemFrame applyReturnWebhookToItem
  split_ifs <;> simp

theorem trackingWebhook_frame (d : WebhookData) (oid sid : String) (item : OrderItem) :
    webhookItemFrame item (applyTrackingWebhookToItem d oid sid item) := by
  unfold webhookItemFrame applyTrackingWebhookToItem
  simp

/-- C10: an accepted carrier webhook call of any family changes no
item's quantity, adds or removes no item, and leaves the order's amount
breakdown untouched: every resulting item agrees with its pre-state on
all fields other than `orderStatus`, `statusHistory`, the status/refund
timestamp and amount fields, and the carrier `shiprocket` sub-record. -/
theorem C10_webhook_frame :
    (∀ (raw : RawWebhookPayload) (now : Millis) (order order2 : Order),
       handleShiprocketWebhook raw now order = .ok order2 →
       order2.items.length = order.items.length ∧
       order2.amount = order.amount ∧
       ∀ (i : Nat) (a : OrderItem), order.items[i]? = some a →
         ∃ b, order2.items[i]? = some b ∧ webhookItemFrame a b) ∧
    (∀ (raw : RawWebhookPayload) (now : Millis) (order order2 : Order),
       handleShiprocketReturnWebhook raw now order = .ok order2 →
       order2.items.length = order.items.length ∧
       order2.amount = order.amount ∧
       ∀ (i : Nat) (a : OrderItem), order.items[i]? = some a →
         ∃ b, order2.items[i]? = some b ∧ webhookItemFrame a b) ∧
    (∀ (raw : RawWebhookPayload) (now : Millis) (order order2 : Order),
       handleShiprocketTrackingWebhook raw now order = .ok order2 →
       order2.items.length = order.items.length ∧
       order2.amount = order.amount ∧
       ∀ (i : Nat) (a : OrderItem), order.items[i]? = some a →
         ∃ b, order2.items[i]? = some b ∧ webhookItemFrame a b) := by
  refine ⟨?_, ?_, ?_⟩
  · intro raw now order order2 hok
    unfold handleShiprocketWebhook at hok
    dsimp only at hok
    split at hok
    · rename_i order_id status hoid hstat
      split at hok
      · exact absurd hok (by simp)
      · injection hok with h2
        subst h2
        refine ⟨by simp, rfl, ?_⟩
        intro i a ha
        have hb : (order.items.map (fun it =>
            if srOrderId it == some order_id then
              applyOrderWebhookToItem (normalizeShiprocketPayload raw now)
                (mapShiprocketStatus status)
                (getStatusNote status (normalizeShiprocketPayload raw now).courier_name) now it
            else it))[i]?
            = some (if srOrderId a == some order_id then
                applyOrderWebhookToItem (normalizeShiprocketPayload raw now)
                  (mapShiprocketStatus status)
                  (getStatusNote status (normalizeShiprocketPayload raw now).courier_name) now a
              else a) := by
          simp only [List.getElem?_map, ha, Option.map_some']
        by_cases hm : srOrderId a == some order_id
        · rw [if_pos hm] at hb
          exact ⟨_, hb, orderWebhook_frame _ _ _ _ _⟩
        · rw [if_neg hm] at hb
          exact ⟨a, hb, webhookItemFrame_refl a⟩
    · exact absurd hok (by simp)
  · intro raw now order order2 hok
    rw [returnWebhook_always_errors] at hok
    exact absurd hok (by simp)
  · intro raw now order order2 hok
    unfold handleShiprocketTrackingWebhook at hok
    dsimp only at hok
    split at hok
    · rename_i order_id shipment_id hoid hsid
      split at hok
      · exact absurd hok (by simp)
      · injection hok with h2
        subst h2
        refine ⟨by simp, rfl, ?_⟩
        intro i a ha
        have hb : (order.items.map (fun it =>
            if srOrderId it == some order_id then
              applyTrackingWebhookToItem (normalizeShiprocketPayload raw now)
                order_id shipment_id it
            else it))[i]?
            = some (if srOrderId a == some order_id then
                applyTrackingWebhookToItem (normalizeShiprocketPayload raw now)
                  order_id shipment_id a
              else a) := by
          simp only [List.getElem?_map, ha, Option.map_some']
        by_cases hm : srOrderId a == some order_id
        · rw [if_pos hm] at hb
          exact ⟨_, hb, trackingWebhook_frame _ _ _ _⟩
        · rw [if_neg hm] at hb
          exact ⟨a, hb, webhookItemFrame_refl a⟩
    · exact absurd hok (by simp)

/-- Witness for C10 at concrete inputs: ingesting `deliveredPayload`
into `webhookOrder` leaves `webhookItem`'s quantity, product snapshot
and refund fields untouched. -/
theorem C10_webhook_frame_witness :
    ∃ b, webhookSkipResult.items[0]? = some b ∧ webhookItemFrame webhookItem b :=
  (C10_webhook_frame.1 deliveredPayload 300000000 webhookOrder webhookSkipResult
    (by rfl)).2.2 0 webhookItem (by rfl)

theorem item_mem_of_get {l : List OrderItem} {i : Nat} {a : OrderItem}
    (h : l[i]? = some a) : a ∈ l := by
  obtain ⟨hl, he⟩ := List.getElem?_eq_some.mp h
  exact he ▸ List.getElem_mem hl

theorem splitOrUpdate_historyAppendOnly {order : Order} {i : Nat} {item : OrderItem}
    {q : Nat} (fb ff : OrderItem → OrderItem) (e : StatusHistoryEntry)
    (hget : order.items[i]? = some item)
    (hb : (fb item).statusHistory = item.statusHistory ++ [e])
    (hf : (ff item).statusHistory = item.statusHistory ++ [e]) :
    historyAppendOnly order (splitOrUpdate order i item q fb ff) e := by
  have hmem : item ∈ order.items := item_mem_of_get hget
  unfold historyAppendOnly splitOrUpdate
  split_ifs with h
  · intro b hbmem
    simp only [List.mem_append, List.mem_singleton] at hbmem
    rcases hbmem with hset | hbatch
    · rcases List.mem_or_eq_of_mem_set hset with hin | heq
      · exact Or.inl ⟨b, hin, rfl⟩
      · subst heq
        exact Or.inl ⟨item, hmem, rfl⟩
    · subst hbatch
      exact Or.inr ⟨item, hmem, hb⟩
  · intro b hbmem
    rcases List.mem_or_eq_of_mem_set hbmem with hin | heq
    · exact Or.inl ⟨b, hin, rfl⟩
    · subst heq
      exact Or.inr ⟨item, hmem, hf⟩

theorem map_historyAppendOnly (order : Order) (f : OrderItem → OrderItem)
    (e : StatusHistoryEntry)
    (hpt : ∀ a, (f a).statusHistory = a.statusHistory ∨
      (f a).statusHistory = a.statusHistory ++ [e]) :
    historyAppendOnly order { order with items := order.items.map f } e := by
  unfold historyAppendOnly
  intro b hbmem
  obtain ⟨a, ha, hfa⟩ := List.exists_of_mem_map hbmem
  rcases hpt a with h | h
  · exact Or.inl ⟨a, ha, by rw [← hfa, h]⟩
  · exact Or.inr ⟨a, ha, by rw [← hfa, h]⟩

/-- C9: after any successful status transition on any mutation path —
the schema method `updateItemStatus`, user/admin cancel, user return
request, return-cancel, admin refund, the admin return-status update,
the pickup step that ships every `Ordered` item, and the order-status
webhook loop — each resulting item carries either its untouched prior
history or that history plus exactly one new entry (with the status
value and the `changedAt` timestamp) at the end; and whenever the prior
history is monotone and no prior timestamp exceeds the new entry's, the
extended history stays monotonically non-decreasing. -/
theorem C9_history_append_only :
    (∀ (order order2 : Order) (i : Nat) (s : String) (note : Option String) (now : Millis),
       updateItemStatus order i s note now = .ok order2 →
       ∃ item, order.items[i]? = some item ∧
         order2.items = order.items.set i
           { item with orderStatus := s,
                       statusHistory := item.statusHistory ++ [⟨s, note, now⟩] }) ∧
    (∀ (order order2 : Order) (itemId q : Nat) (note : Option String)
       (freshId : Nat) (now : Millis),
       cancelOrderItem order itemId q note freshId now = .ok order2 →
       historyAppendOnly order order2 ⟨"Cancelled", note, now⟩) ∧
    (∀ (order order2 : Order) (itemId q : Nat) (note returnId : String)
       (freshId : Nat) (now : Millis),
       returnOrderItem order itemId q note returnId freshId now = .ok order2 →
       historyAppendOnly order order2 ⟨"Return Requested", some note, now⟩) ∧
    (∀ (order order2 : Order) (itemId : Nat) (q : Option Nat) (now : Millis),
       processReturnCancel order itemId q now = .ok order2 →
       historyAppendOnly order order2
         ⟨"Return Cancelled", some "Return request cancelled by admin", now⟩) ∧
    (∀ (order order2 : Order) (itemId : Nat) (amt : Int) (q : Option Nat) (now : Millis),
       processRefund order itemId amt q now = .ok order2 →
       historyAppendOnly order order2
         ⟨"Refunded", some "Refund processed by admin", now⟩) ∧
    (∀ (order order2 : Order) (returnId status : String) (note : Option String)
       (now : Millis),
       updateReturnRequestStatus order returnId status note now = .ok order2 →
       historyAppendOnly order order2 ⟨status, note, now⟩) ∧
    (∀ (order order2 : Order) (now : Millis),
       generatePickupStep order now = .ok order2 →
       historyAppendOnly order order2
         ⟨"Shipped", some "Order shipped via Shiprocket - All steps completed", now⟩) ∧
    (∀ (raw : RawWebhookPayload) (now : Millis) (order order2 : Order),
       handleShiprocketWebhook raw now order = .ok order2 →
       historyAppendOnly order order2
         ⟨mapShiprocketStatus ((normalizeShiprocketPayload raw now).status.getD ""),
          some (getStatusNote ((normalizeShiprocketPayload raw now).status.getD "")
            (normalizeShiprocketPayload raw now).courier_name),
          now⟩) ∧
    (∀ (h : List StatusHistoryEntry) (s : String) (note : Option String) (now : Millis),
       historyMonotone h →
       (∀ e ∈ h, e.changedAt ≤ now) →
       historyMonotone (h ++ [⟨s, note, now⟩])) := by
  refine ⟨?_, ?_, ?_, ?_, ?_, ?_, ?_, ?_, ?_⟩
  · intro order order2 i s note now hok
    unfold updateItemStatus at hok
    split at hok
    · exact absurd hok (by simp)
    · rename_i item hget
      injection hok with h2
      subst h2
      exact ⟨item, hget, rfl⟩
  · intro order order2 itemId q note freshId now hok
    unfold cancelOrderItem at hok
    split at hok
    · exact absurd hok (by simp)
    · split at hok
      · exact absurd hok (by simp)
      · rename_i i item hfind
        split at hok
        · exact absurd hok (by simp)
        · split at hok
          · exact absurd hok (by simp)
          · injection hok with h2
            subst h2
            exact splitOrUpdate_historyAppendOnly _ _ _ (findItem_get hfind) rfl rfl
  · intro order order2 itemId q note returnId freshId now hok
    unfold returnOrderItem at hok
    split at hok
    · exact absurd hok (by simp)
    · split at hok
      · exact absurd hok (by simp)
      · split at hok
        · exact absurd hok (by simp)
        · rename_i i item hfind
          split at hok
          · exact absurd hok (by simp)
          · split at hok
            · exact absurd hok (by simp)
            · split at hok
              · exact absurd hok (by simp)
              · split at hok
                · exact absurd hok (by simp)
                · injection hok with h2
                  subst h2
                  exact splitOrUpdate_historyAppendOnly _ _ _ (findItem_get hfind) rfl rfl
  · intro order order2 itemId q now hok
    unfold processReturnCancel at hok
    split at hok
    · exact absurd hok (by simp)
    · rename_i i item hfind
      repeat' split at hok
      all_goals try dsimp only at hok
      all_goals
        first
        | (injection hok with h2
           subst h2
           exact splitOrUpdate_historyAppendOnly _ _ _ (findItem_get hfind) rfl rfl)
        | exact absurd hok (by simp)
  · intro order order2 itemId amt q now hok
    unfold processRefund at hok
    split at hok
    · exact absurd hok (by simp)
    · split at hok
      · exact absurd hok (by simp)
      · rename_i i item hfind
        repeat' split at hok
        all_goals try dsimp only at hok
        all_goals
          first
          | (injection hok with h2
             subst h2
             exact splitOrUpdate_historyAppendOnly _ _ _ (findItem_get hfind) rfl rfl)
          | exact absurd hok (by simp)
  · intro order order2 returnId status note now hok
    unfold updateReturnRequestStatus at hok
    split at hok
    · exact absurd hok (by simp)
    · rename_i i hidx
      split at hok
      · exact absurd hok (by simp)
      · rename_i item hget
        split at hok
        · exact absurd hok (by simp)
        · injection hok with h2
          subst h2
          unfold historyAppendOnly
          intro b hbmem
          rcases List.mem_or_eq_of_mem_set hbmem with hin | heq
          · exact Or.inl ⟨b, hin, rfl⟩
          · subst heq
            refine Or.inr ⟨item, item_mem_of_get hget, ?_⟩
            split_ifs <;> rfl
  · intro order order2 now hok
    unfold generatePickupStep at hok
    split_ifs at hok with hg1 hg2
    injection hok with h2
    subst h2
    rw [List.map_map]
    apply map_historyAppendOnly
    intro a
    simp only [Function.comp]
    by_cases hc2 : (a.orderStatus == "Ordered") = true <;>
    by_cases hca : ((a.shiprocket.map (fun s => s.flags.awbAssigned)).getD false) = true <;>
      simp [hc2, hca, createStatusHistoryEntry]
  · intro raw now order order2 hok
    unfold handleShiprocketWebhook at hok
    dsimp only at hok
    split at hok
    · rename_i order_id status hoid hstat
      split at hok
      · exact absurd hok (by simp)
      · injection hok with h2
        subst h2
        simp only [hstat, Option.getD_some]
        apply map_historyAppendOnly
        intro a
        by_cases hm : (srOrderId a == some order_id) = true
        · rw [if_pos hm]
          by_cases hs : a.orderStatus = mapShiprocketStatus status
          · exact Or.inl (applyOrderWebhook_skip _ _ _ _ _ hs).1
          · exact Or.inr (applyOrderWebhook_write _ _ _ _ _ hs)
        · rw [if_neg hm]
          exact Or.inl rfl
    · exact absurd hok (by simp)
  · intro h s note now hmono hbound
    unfold historyMonotone at hmono ⊢
    rw [List.pairwise_append]
    refine ⟨hmono, by simp, ?_⟩
    intro a ha b hb
    simp only [List.mem_singleton] at hb
    subst hb
    exact hbound a ha

/-- Witness for C9 at concrete inputs: shipping `sampleItem` appends a
single entry, cancelling 2 of its 5 units yields items whose histories
are the prior history or the prior history plus the one cancel entry,
and the extended delivered history stays monotone. -/
theorem C9_history_append_only_witness :
    (∃ item, sampleOrder.items[0]? = some item ∧
      sampleShipResult.items = sampleOrder.items.set 0
        { item with orderStatus := "Shipped",
                    statusHistory := item.statusHistory ++ [⟨"Shipped", none, 42⟩] }) ∧
    historyAppendOnly sampleOrder sampleCancelResult ⟨"Cancelled", none, 0⟩ ∧
    historyMonotone (deliveredHistory ++ [⟨"Return Requested", none, 200000000⟩]) :=
  ⟨C9_history_append_only.1 sampleOrder sampleShipResult 0 "Shipped" none 42 (by rfl),
   C9_history_append_only.2.1 sampleOrder sampleCancelResult 1 2 none 7 0 (by rfl),
   C9_history_append_only.2.2.2.2.2.2.2.2 deliveredHistory "Return Requested" none 200000000
     (by unfold historyMonotone; decide) (by decide)⟩

end Vibly
